import Mathlib

/-!
Shallow embedding of the Support-RAG client-side request/session
orchestration layer, translated from the TypeScript sources under
frontend/src: the error classifiers (utils/errorHandlers.ts), the HTTP
client with its retry interceptor (services/api.ts), the credential and
session storage wrappers (utils/tokenUtils.ts, utils/sessionUtils.ts),
the auth service (services/authService.ts), the chat service
(services/chatService.ts), the conversation reducer
(context/chatReducer.ts) and the orchestrating handlers
(components/chat/ChatInterface.tsx).

JS values are modelled as follows: strings are String, numbers that the
code uses integrally are Nat or Int, similarity scores (floats passed
through verbatim, never computed with) are Rat, null and undefined are
Option.none, thrown JS exceptions are Except.error, and the randomness
consumed by Math.random is an explicit stream of naturals (each draw
taken mod 16, matching the (Math.random() times 16) | 0 idiom of the
source). Storage values are strings, as in the Web Storage API.
-/

/-! ### JS string helpers -/

/-- Embedding of the JS String.prototype.includes test on char lists:
true when pat occurs contiguously inside the list. -/
def listIncludes (pat : List Char) : List Char → Bool
  | [] => pat.isEmpty
  | c :: rest => pat.isPrefixOf (c :: rest) || listIncludes pat rest

/-- Embedding of s.includes(pat) for JS strings. -/
def jsIncludes (s pat : String) : Bool :=
  listIncludes pat.toList s.toList

/-- JS truthiness of a possibly-absent string: null, undefined and the
empty string are falsy. -/
def jsTruthy : Option String → Bool
  | some s => s != ""
  | none => false

/-- The a || fallback idiom on a possibly-absent string. -/
def jsStrOr (v : Option String) (fallback : String) : String :=
  match v with
  | some s => if s != "" then s else fallback
  | none => fallback

/-! ### Error values (the unknown argument of utils/errorHandlers.ts)

A JS error value reaching the handlers is one of: an Error instance
(for axios errors: with an optional response status and an optional
backend detail field in the response body), a plain object that has a
detail key, a plain object without one, a plain string, or anything
else. -/

inductive JsError where
  | errObj (message : String) (responseStatus : Option Nat) (responseDetail : Option String)
  | objWithDetail (detail : Option String)
  | objNoDetail
  | strVal (s : String)
  | other
  deriving Repr, DecidableEq

/-- Embedding of getErrorMessage (utils/errorHandlers.ts): Error
instances yield their message, objects with a detail key yield
detail || fallback, strings yield themselves, everything else the
generic fallback. -/
def getErrorMessage (e : JsError) : String :=
  match e with
  | .errObj m _ _ => m
  | .objWithDetail d => jsStrOr d "An unknown error occurred"
  | .strVal s => s
  | .objNoDetail => "An unknown error occurred. Please try again."
  | .other => "An unknown error occurred. Please try again."

/-- Embedding of isNetworkError (utils/errorHandlers.ts): an Error
whose message contains Network, fetch or ERR_NETWORK. -/
def isNetworkError (e : JsError) : Bool :=
  match e with
  | .errObj m _ _ =>
      jsIncludes m "Network" || jsIncludes m "fetch" || jsIncludes m "ERR_NETWORK"
  | _ => false

/-- Embedding of isTimeoutError (utils/errorHandlers.ts): an Error
whose message contains timeout or TIMEOUT. -/
def isTimeoutError (e : JsError) : Bool :=
  match e with
  | .errObj m _ _ => jsIncludes m "timeout" || jsIncludes m "TIMEOUT"
  | _ => false

/-- Embedding of getRetryableError (utils/errorHandlers.ts). -/
def getRetryableError (e : JsError) : Bool :=
  isNetworkError e || isTimeoutError e

/-- Embedding of formatApiError (utils/errorHandlers.ts). -/
def formatApiError (e : JsError) : String :=
  if isNetworkError e then
    "Unable to reach the support system. Please check your connection and try again."
  else if isTimeoutError e then
    "Request timed out. Please try again."
  else getErrorMessage e

/-- The message an axios HTTP error carries for a response with the
given status code, together with that status. -/
def axiosHttpError (status : Nat) : JsError :=
  .errObj ("Request failed with status code " ++ toString status) (some status) none

/-- The axios network-failure error: an Error instance with message
Network Error and no response. -/
def axiosNetworkError : JsError :=
  .errObj "Network Error" none none

/-! ### The retry interceptor of services/api.ts -/

/-- Embedding of the MAX_RETRIES constant of services/api.ts. -/
def MAX_RETRIES : Nat := 2

/-- Embedding of the RETRY_DELAY constant (milliseconds) of
services/api.ts. -/
def RETRY_DELAY : Nat := 1000

/-- Outcome of one HTTP attempt, as seen by the response interceptor:
either a response value or a JS error. -/
inductive AttemptOutcome (α : Type) where
  | success (value : α)
  | failure (e : JsError)
  deriving Repr, DecidableEq

/-- Observable summary of one request run through the response
interceptor of services/api.ts: the surfaced result, the number of
reissues performed (the final retry counter), the total time spent in
the fixed inter-retry delays, and whether the final failure was logged
to the console. -/
structure RequestRun (α : Type) where
  result : Except JsError α
  retries : Nat
  delayTotal : Nat
  logged : Bool
  deriving Repr

/-- Response status of an error, when it has a response
(error.response.status in the source). -/
def errResponseStatus (e : JsError) : Option Nat :=
  match e with
  | .errObj _ st _ => st
  | _ => none

/-- Embedding of the logging condition of the response interceptor:
log when the error has no response or the response status is at least
500. -/
def shouldLogError (e : JsError) : Bool :=
  match errResponseStatus e with
  | none => true
  | some s => 500 ≤ s

/-- Embedding of the response-interceptor retry loop of
services/api.ts, parametrized by the outcome of each attempt. The
counter plays the role of the per-request field of the request config:
on a retryable failure with the counter below MAX_RETRIES the request
is reissued after the fixed delay with the counter incremented;
otherwise the failure is surfaced (logged per shouldLogError). -/
def runFrom {α : Type} (attempts : Nat → AttemptOutcome α) (retryCount : Nat) :
    RequestRun α :=
  match attempts retryCount with
  | .success v =>
      { result := .ok v, retries := retryCount,
        delayTotal := retryCount * RETRY_DELAY, logged := false }
  | .failure e =>
      if _hres : getRetryableError e = true then
        if hcnt : retryCount < MAX_RETRIES then
          runFrom attempts (retryCount + 1)
        else
          { result := .error e, retries := retryCount,
            delayTotal := retryCount * RETRY_DELAY, logged := shouldLogError e }
      else
        { result := .error e, retries := retryCount,
          delayTotal := retryCount * RETRY_DELAY, logged := shouldLogError e }
  termination_by MAX_RETRIES + 1 - retryCount
  decreasing_by omega

/-- One whole request: the interceptor loop started with a fresh retry
counter of zero. -/
def runRequest {α : Type} (attempts : Nat → AttemptOutcome α) : RequestRun α :=
  runFrom attempts 0

/-! ### Browser storage model

The two Web Storage scopes (durable localStorage for the auth token and
user id, tab-scoped sessionStorage for the session id and CSRF token)
are modelled as association lists from keys to string values, together
with a broken flag: when it is set, every raw storage operation throws,
which the wrappers below catch exactly as the try/catch blocks of
utils/tokenUtils.ts and utils/sessionUtils.ts do. -/

structure StorageState where
  localData : List (String × String)
  sessionData : List (String × String)
  broken : Bool
  deriving Repr, DecidableEq

/-- Association-list update with JS object/storage overwrite
semantics. -/
def setAssoc (l : List (String × String)) (k v : String) :
    List (String × String) :=
  (k, v) :: l.filter (fun p => p.fst != k)

/-- Association-list removal. -/
def removeAssoc (l : List (String × String)) (k : String) :
    List (String × String) :=
  l.filter (fun p => p.fst != k)

/-- Raw localStorage.getItem: throws when the storage layer is broken,
otherwise yields the stored value or null. -/
def localGetItem (st : StorageState) (key : String) :
    Except Unit (Option String) :=
  if st.broken then .error () else .ok (st.localData.lookup key)

/-- Raw localStorage.setItem. -/
def localSetItem (st : StorageState) (key value : String) :
    Except Unit StorageState :=
  if st.broken then .error ()
  else .ok { st with localData := setAssoc st.localData key value }

/-- Raw localStorage.removeItem. -/
def localRemoveItem (st : StorageState) (key : String) :
    Except Unit StorageState :=
  if st.broken then .error ()
  else .ok { st with localData := removeAssoc st.localData key }

/-- Raw sessionStorage.getItem. -/
def sessionGetItem (st : StorageState) (key : String) :
    Except Unit (Option String) :=
  if st.broken then .error () else .ok (st.sessionData.lookup key)

/-- Raw sessionStorage.setItem. -/
def sessionSetItem (st : StorageState) (key value : String) :
    Except Unit StorageState :=
  if st.broken then .error ()
  else .ok { st with sessionData := setAssoc st.sessionData key value }

/-- Raw sessionStorage.removeItem. -/
def sessionRemoveItem (st : StorageState) (key : String) :
    Except Unit StorageState :=
  if st.broken then .error ()
  else .ok { st with sessionData := removeAssoc st.sessionData key }

/-! ### utils/tokenUtils.ts

Each wrapper catches the raw operation: the Except layer never escapes,
so every function below is a total Lean function whose type exhibits
the no-throw contract. -/

/-- Embedding of the TOKEN_KEY constant of utils/tokenUtils.ts. -/
def TOKEN_KEY : String := "supportrag_auth_token"

/-- Embedding of the USER_ID_KEY constant of utils/tokenUtils.ts. -/
def USER_ID_KEY : String := "supportrag_user_id"

/-- Key of the CSRF token in tab-scoped storage
(utils/tokenUtils.ts). -/
def CSRF_KEY : String := "supportrag_csrf_token"

/-- Embedding of getAuthToken: the stored token, or null when absent
or when storage throws. -/
def getAuthToken (st : StorageState) : Option String :=
  match localGetItem st TOKEN_KEY with
  | .ok v => v
  | .error _ => none

/-- Embedding of setAuthToken: stores the token, a no-op when storage
throws. -/
def setAuthToken (st : StorageState) (token : String) : StorageState :=
  match localSetItem st TOKEN_KEY token with
  | .ok st2 => st2
  | .error _ => st

/-- Embedding of removeAuthToken. -/
def removeAuthToken (st : StorageState) : StorageState :=
  match localRemoveItem st TOKEN_KEY with
  | .ok st2 => st2
  | .error _ => st

/-- Embedding of the JS parseInt(s, 10) used by getUserId, restricted
to its use there: an optional sign followed by leading decimal digits;
none models the NaN result on input with no leading digit. -/
def parseInt10 (s : String) : Option Int :=
  let digitsVal : List Char → Option Nat := fun l =>
    match l with
    | c :: _ =>
        if c.isDigit then
          some (l.takeWhile Char.isDigit |>.foldl
            (fun acc c => acc * 10 + (c.toNat - 48)) 0)
        else none
    | [] => none
  match s.toList with
  | '-' :: rest => (digitsVal rest).map (fun n => -(n : Int))
  | '+' :: rest => (digitsVal rest).map (fun n => (n : Int))
  | l => (digitsVal l).map (fun n => (n : Int))

/-- Embedding of getUserId: parses the stored decimal string; null when
absent, empty, or when storage throws. -/
def getUserId (st : StorageState) : Option Int :=
  match localGetItem st USER_ID_KEY with
  | .ok (some s) => if s != "" then parseInt10 s else none
  | .ok none => none
  | .error _ => none

/-- Embedding of setUserId: stores the decimal rendering of the id. -/
def setUserId (st : StorageState) (i : Int) : StorageState :=
  match localSetItem st USER_ID_KEY (toString i) with
  | .ok st2 => st2
  | .error _ => st

/-- Embedding of removeUserId. -/
def removeUserId (st : StorageState) : StorageState :=
  match localRemoveItem st USER_ID_KEY with
  | .ok st2 => st2
  | .error _ => st

/-- Embedding of clearAuth: removes auth token and user id together. -/
def clearAuth (st : StorageState) : StorageState :=
  removeUserId (removeAuthToken st)

/-- Embedding of getCsrfToken (tab-scoped storage). -/
def getCsrfToken (st : StorageState) : Option String :=
  match sessionGetItem st CSRF_KEY with
  | .ok v => v
  | .error _ => none

/-- Embedding of setCsrfToken. -/
def setCsrfToken (st : StorageState) (token : String) : StorageState :=
  match sessionSetItem st CSRF_KEY token with
  | .ok st2 => st2
  | .error _ => st

/-- Embedding of removeCsrfToken. -/
def removeCsrfToken (st : StorageState) : StorageState :=
  match sessionRemoveItem st CSRF_KEY with
  | .ok st2 => st2
  | .error _ => st

/-! ### utils/sessionUtils.ts -/

/-- Embedding of the SESSION_ID_KEY constant of
utils/sessionUtils.ts. -/
def SESSION_ID_KEY : String := "supportrag_session_id"

/-- Hex digit character for a nibble, as produced by the JS
v.toString(16) call on a value below 16. -/
def hexDigitChar (n : Nat) : Char :=
  match n with
  | 0 => '0' | 1 => '1' | 2 => '2' | 3 => '3'
  | 4 => '4' | 5 => '5' | 6 => '6' | 7 => '7'
  | 8 => '8' | 9 => '9' | 10 => 'a' | 11 => 'b'
  | 12 => 'c' | 13 => 'd' | 14 => 'e' | _ => 'f'

/-- The template string of generateUUID (utils/sessionUtils.ts). -/
def uuidTemplate : List Char := "xxxxxxxx-xxxx-4xxx-yxxx-xxxxxxxxxxxx".toList

/-- Embedding of the regex-replace of generateUUID: every x becomes a
random nibble, every y becomes (r and 3) or 8 for a random nibble r,
other characters are copied; the replacer consumes one random draw per
replaced character, left to right. -/
def replaceUuidChars (rand : Nat → Nat) : List Char → Nat → List Char
  | [], _ => []
  | c :: cs, k =>
    if c == 'x' then
      hexDigitChar (rand k % 16) :: replaceUuidChars rand cs (k + 1)
    else if c == 'y' then
      hexDigitChar (((rand k % 16) &&& 3) ||| 8) :: replaceUuidChars rand cs (k + 1)
    else
      c :: replaceUuidChars rand cs k

/-- Embedding of generateUUID (utils/sessionUtils.ts), with the
Math.random draws supplied as an explicit stream. -/
def generateUUID (rand : Nat → Nat) : String :=
  String.mk (replaceUuidChars rand uuidTemplate 0)

/-- Checker for the UUID v4 shape carved out by the template: hex
digits at the x positions, one of 8, 9, a, b at the y position, and the
literal hyphens and version digit elsewhere. -/
def matchesUuidShape : List Char → List Char → Bool
  | [], [] => true
  | c :: cs, t :: ts =>
    (if t == 'x' then ("0123456789abcdef".toList).contains c
     else if t == 'y' then ("89ab".toList).contains c
     else c == t) && matchesUuidShape cs ts
  | _, _ => false

/-- A string has the UUID v4 shape when it matches the template. -/
def isUuidV4 (s : String) : Bool := matchesUuidShape s.toList uuidTemplate

/-- Embedding of getSessionId (utils/sessionUtils.ts): returns the
stored id when present and non-empty; otherwise generates a fresh UUID,
persists it and returns it; when storage throws, the catch block
returns a fresh UUID without persisting. Returns the id together with
the updated storage. -/
def getSessionId (st : StorageState) (rand : Nat → Nat) :
    String × StorageState :=
  match sessionGetItem st SESSION_ID_KEY with
  | .error _ => (generateUUID rand, st)
  | .ok existing =>
    match existing with
    | some s =>
      if s != "" then (s, st)
      else
        let newId := generateUUID rand
        match sessionSetItem st SESSION_ID_KEY newId with
        | .ok st2 => (newId, st2)
        | .error _ => (newId, st)
    | none =>
      let newId := generateUUID rand
      match sessionSetItem st SESSION_ID_KEY newId with
      | .ok st2 => (newId, st2)
      | .error _ => (newId, st)

/-- Embedding of clearSessionId (utils/sessionUtils.ts). -/
def clearSessionId (st : StorageState) : StorageState :=
  match sessionRemoveItem st SESSION_ID_KEY with
  | .ok st2 => st2
  | .error _ => st

/-- Embedding of regenerateSessionId (utils/sessionUtils.ts): clears
the stored id, then performs getSessionId. -/
def regenerateSessionId (st : StorageState) (rand : Nat → Nat) :
    String × StorageState :=
  getSessionId (clearSessionId st) rand

/-! ### services/authService.ts

The two network calls of the login flow are parametrized by their
outcomes; the definitions record what the flow does with them and with
the credential storage. -/

/-- HTTP method of a request issued through the api client. -/
inductive HttpMethod where
  | get
  | post
  | delete
  deriving Repr, DecidableEq

/-- Method of the CSRF fetch in services/authService.ts: the source
calls apiClient.get on the CSRF route. -/
def csrfRequestMethod : HttpMethod := .get

/-- Route of the CSRF fetch in services/authService.ts. -/
def csrfRequestPath : String := "/auth/csrf"

/-- Shape of the CSRF endpoint response body. -/
structure CsrfResponse where
  csrf_token : String
  deriving Repr, DecidableEq

/-- Shape of the login endpoint response body
(types/api.types.ts). -/
structure LoginResponse where
  access_token : String
  token_type : String
  user_id : Int
  deriving Repr, DecidableEq

/-- Embedding of fetchCsrfToken (services/authService.ts): on success
a truthy token is stored in tab-scoped storage and returned; a falsy
token is not stored and null is returned; on failure the catch block
logs a console warning (the Bool component) and returns null. -/
def fetchCsrfToken (st : StorageState) (outcome : Except JsError CsrfResponse) :
    Option String × StorageState × Bool :=
  match outcome with
  | .ok r =>
      if r.csrf_token != "" then
        (some r.csrf_token, setCsrfToken st r.csrf_token, false)
      else
        (none, st, false)
  | .error _ => (none, st, true)

/-- Embedding of authService.login: first fetchCsrfToken (its failure
is absorbed), then the login call; on success the returned auth token
and user id are stored via the credential wrappers and the response is
returned. The Bool component records whether the CSRF warning was
logged. -/
def login (st : StorageState) (csrfOutcome : Except JsError CsrfResponse)
    (loginOutcome : Except JsError LoginResponse) :
    Except JsError LoginResponse × StorageState × Bool :=
  let r := fetchCsrfToken st csrfOutcome
  match loginOutcome with
  | .error e => (.error e, r.2.1, r.2.2)
  | .ok data =>
      (.ok data, setUserId (setAuthToken r.2.1 data.access_token) data.user_id, r.2.2)

/-- Embedding of authService.logout. -/
def logout (st : StorageState) : StorageState := clearAuth st

/-! ### Chat data model (types/chat.types.ts) -/

/-- Role of a conversation message. -/
inductive Role where
  | user
  | assistant
  | system
  deriving Repr, DecidableEq

/-- Delivery status of a conversation message. -/
inductive MsgStatus where
  | sending
  | sent
  | error
  deriving Repr, DecidableEq

/-- Similarity scores are floats the client passes through verbatim
and never computes with; they are modelled as rationals. -/
abbrev Score := Rat

/-- Embedding of the ChatSource interface (types/chat.types.ts). -/
structure ChatSource where
  title : String
  url : String
  relevance_score : Score
  deriving Repr, DecidableEq

/-- Embedding of the ChatMessage interface (types/chat.types.ts);
optional fields are Options. -/
structure ChatMessage where
  id : String
  role : Role
  content : String
  timestamp : Nat
  status : Option MsgStatus
  sources : Option (List ChatSource)
  confidence_score : Option Score
  deriving Repr, DecidableEq

/-- Embedding of the ChatState interface (types/chat.types.ts): the
ConversationStore contents. -/
structure ChatState where
  messages : List ChatMessage
  isLoading : Bool
  error : Option String
  sessionId : String
  deriving Repr, DecidableEq

/-- Embedding of initialChatState (context/chatReducer.ts). -/
def initialChatState : ChatState :=
  { messages := [], isLoading := false, error := none, sessionId := "" }

/-! ### The reducer transitions (context/chatReducer.ts) -/

/-- Embedding of the ADD_MESSAGE case: append to the log. -/
def addMessage (st : ChatState) (m : ChatMessage) : ChatState :=
  { st with messages := st.messages ++ [m] }

/-- Embedding of the SET_LOADING case. -/
def setLoading (st : ChatState) (b : Bool) : ChatState :=
  { st with isLoading := b }

/-- Embedding of the SET_ERROR case: writes the error slot and also
clears the loading flag, as the reducer does. -/
def setError (st : ChatState) (e : Option String) : ChatState :=
  { st with error := e, isLoading := false }

/-- Embedding of the CLEAR_ERROR case. -/
def clearError (st : ChatState) : ChatState :=
  { st with error := none }

/-- Embedding of the CLEAR_MESSAGES case. -/
def clearMessages (st : ChatState) : ChatState :=
  { st with messages := [] }

/-! ### services/chatService.ts -/

/-- Embedding of the PROJECT_ID constant: parseInt of the VITE
project-id environment value with default string 1, modelled at its
default. -/
def PROJECT_ID : Nat := 1

/-- Embedding of the RetrievedChunk interface (types/api.types.ts).
The metadata record maps string keys to values the service reads as
strings; a missing record models an undefined metadata field, which
the service guards with optional chaining. -/
structure RetrievedChunk where
  chunk_id : Nat
  asset_id : Nat
  content : String
  similarity_score : Score
  metadata : Option (List (String × String))
  deriving Repr, DecidableEq

/-- Embedding of the RagQueryResponse interface
(types/api.types.ts). -/
structure RagQueryResponse where
  status : String
  project_id : Nat
  query : String
  retrieved_chunks : List RetrievedChunk
  retrieved_count : Nat
  response : String
  generation_status : String
  deriving Repr, DecidableEq

/-- Embedding of the RagQueryRequest payload built by
chatService.sendMessage: only query and project_id are sent. -/
structure RagQueryRequest where
  project_id : Nat
  query : String
  deriving Repr, DecidableEq

/-- Lookup of a metadata key through the optional chaining of the
source (chunk.metadata?.key). -/
def metaGet (md : Option (List (String × String))) (key : String) :
    Option String :=
  match md with
  | some l => l.lookup key
  | none => none

/-- Title of the citation built from a chunk
(services/chatService.ts): metadata title, else metadata filename,
else Document followed by the asset id — where else is the JS
truthiness test of the || chain in the source (a present but empty
value also falls through). -/
def chunkTitle (chunk : RetrievedChunk) : String :=
  jsStrOr (metaGet chunk.metadata "title")
    (jsStrOr (metaGet chunk.metadata "filename")
      ("Document " ++ toString chunk.asset_id))

/-- Url of the citation built from a chunk: metadata url, else
metadata source, else the empty string. -/
def chunkUrl (chunk : RetrievedChunk) : String :=
  jsStrOr (metaGet chunk.metadata "url")
    (jsStrOr (metaGet chunk.metadata "source") "")

/-- Embedding of the chunk-to-citation mapping of
chatService.sendMessage. -/
def toChatSource (chunk : RetrievedChunk) : ChatSource :=
  { title := chunkTitle chunk, url := chunkUrl chunk,
    relevance_score := chunk.similarity_score }

/-- Modelled from the spec: the citation title rule as the spec states
it — title = chunk metadata title, else metadata filename, else a
synthesized Document title from the asset id — reading else as the
truthiness test the mapping applies (an absent or empty value falls
through). Written independently of the source mapping to compare the
two. -/
def specCitationTitle (chunk : RetrievedChunk) : String :=
  match metaGet chunk.metadata "title" with
  | some t =>
      if t = "" then
        match metaGet chunk.metadata "filename" with
        | some f => if f = "" then "Document " ++ toString chunk.asset_id else f
        | none => "Document " ++ toString chunk.asset_id
      else t
  | none =>
      match metaGet chunk.metadata "filename" with
      | some f => if f = "" then "Document " ++ toString chunk.asset_id else f
      | none => "Document " ++ toString chunk.asset_id

/-- Modelled from the spec: the citation url rule as the spec states
it — url = metadata url, else metadata source, else the empty
string. -/
def specCitationUrl (chunk : RetrievedChunk) : String :=
  match metaGet chunk.metadata "url" with
  | some u =>
      if u = "" then
        match metaGet chunk.metadata "source" with
        | some v => if v = "" then "" else v
        | none => ""
      else u
  | none =>
      match metaGet chunk.metadata "source" with
      | some v => if v = "" then "" else v
      | none => ""

/-- Embedding of the payload construction of chatService.sendMessage.
The sessionId parameter is voided by the source and does not reach the
payload. -/
def sendMessagePayload (query : String) (sessionId : String) : RagQueryRequest :=
  { project_id := PROJECT_ID, query := query }

/-- Embedding of the response mapping of chatService.sendMessage: the
backend response becomes an assistant message whose content is the
response text and whose sources are the mapped chunks. The message id
(Date.now with a Math.random suffix in the source) and timestamp are
supplied as parameters. -/
def sendMessageResult (ragResponse : RagQueryResponse) (msgId : String)
    (now : Nat) : ChatMessage :=
  { id := msgId, role := .assistant, content := ragResponse.response,
    timestamp := now, status := some .sent,
    sources := some (ragResponse.retrieved_chunks.map toChatSource),
    confidence_score := none }

/-! ### The request interceptor of services/api.ts -/

/-- An outgoing HTTP request with a typed body. -/
structure HttpRequest (β : Type) where
  method : HttpMethod
  path : String
  headers : List (String × String)
  body : β
  deriving Repr, DecidableEq

/-- Header assignment with JS object overwrite semantics. -/
def setHeader (headers : List (String × String)) (k v : String) :
    List (String × String) :=
  setAssoc headers k v

/-- Embedding of the request interceptor of services/api.ts: reads the
session id (which may persist a fresh one), then attaches the identity
headers — session id, bearer auth token, CSRF token — each only when
truthy. Returns the decorated request and the storage state after the
session-id read. -/
def applyRequestInterceptor {β : Type} (st : StorageState) (rand : Nat → Nat)
    (req : HttpRequest β) : HttpRequest β × StorageState :=
  let r := getSessionId st rand
  let h1 := if r.1 != "" then setHeader req.headers "X-Session-ID" r.1
            else req.headers
  let h2 := match getAuthToken r.2 with
    | some token =>
        if token != "" then setHeader h1 "Authorization" ("Bearer " ++ token)
        else h1
    | none => h1
  let h3 := match getCsrfToken r.2 with
    | some c => if c != "" then setHeader h2 "X-CSRF-Token" c else h2
    | none => h2
  ({ req with headers := h3 }, r.2)

/-- The raw request chatService.sendMessage posts before the
interceptor runs: a POST to the rag query route with the JSON content
type of the client defaults and the payload built from the query. -/
def ragQueryRequestOf (query sessionId : String) : HttpRequest RagQueryRequest :=
  { method := .post, path := "/rag/query",
    headers := [("Content-Type", "application/json")],
    body := sendMessagePayload query sessionId }

/-- The fully decorated outgoing request of a send-message call: the
raw request after the request interceptor. -/
def sendMessageOutgoing (st : StorageState) (rand : Nat → Nat)
    (query sessionId : String) : HttpRequest RagQueryRequest × StorageState :=
  applyRequestInterceptor st rand (ragQueryRequestOf query sessionId)

/-! ### The orchestrating handlers of
components/chat/ChatInterface.tsx

Each handler is parametrized by the awaited outcomes of its service
calls and by the ids and timestamps the source draws from generateUUID
and Date.now. -/

/-- The err instanceof Error test of the catch blocks: an Error
instance yields its message, anything else the given fallback. -/
def errMessageOr (e : JsError) (fallback : String) : String :=
  match e with
  | .errObj m _ _ => m
  | _ => fallback

/-- A system breadcrumb message as built by handleUploadFile. -/
def sysMessage (msgId : String) (content : String) (now : Nat) : ChatMessage :=
  { id := msgId, role := .system, content := content, timestamp := now,
    status := none, sources := none, confidence_score := none }

/-- Embedding of handleSendMessage (ChatInterface.tsx): append the
user message, set loading, await the send; on success append the
assistant message, on failure write the error slot with the failure
message or the generic send fallback; finally clear loading. -/
def handleSendMessage (st : ChatState) (content : String)
    (outcome : Except JsError ChatMessage) (msgId : String) (now : Nat) :
    ChatState :=
  let userMsg : ChatMessage :=
    { id := msgId, role := .user, content := content, timestamp := now,
      status := some .sent, sources := none, confidence_score := none }
  let st1 := setLoading (addMessage st userMsg) true
  match outcome with
  | .ok assistantMsg => setLoading (addMessage st1 assistantMsg) false
  | .error e =>
      setLoading (setError st1 (some (errMessageOr e "Failed to send message"))) false

/-- Joint outcome of the two service calls of the upload flow: the
upload call fails, or it succeeds and the process call fails, or both
succeed. A later step is never attempted once an earlier one fails. -/
inductive UploadScenario where
  | uploadFailed (e : JsError)
  | processFailed (upload : Nat) (e : JsError)
  | bothSucceeded (upload : Nat) (taskStatus : String)
  deriving Repr, DecidableEq

/-- Embedding of handleUploadFile (ChatInterface.tsx): set loading and
clear the error, append the uploading breadcrumb; then follow the
try/catch of the source — after a successful upload append the
processing breadcrumb, after a successful process append the success
breadcrumb; on any failure write the error slot and append the failure
breadcrumb; finally clear loading. The upload component of the
scenario carries the asset id the process step would receive. -/
def handleUploadFile (st : ChatState) (fileName : String)
    (scenario : UploadScenario) (ids : Nat → String) (times : Nat → Nat) :
    ChatState :=
  let st1 := clearError (setLoading st true)
  let st2 := addMessage st1
    (sysMessage (ids 0) ("Uploading " ++ fileName ++ "...") (times 0))
  match scenario with
  | .uploadFailed e =>
      let st3 := setError st2 (some (errMessageOr e "Upload or processing failed"))
      let st4 := addMessage st3
        (sysMessage (ids 1) ("Failed to process " ++ fileName ++ ".") (times 1))
      setLoading st4 false
  | .processFailed _ e =>
      let st3 := addMessage st2
        (sysMessage (ids 1) ("File uploaded. Processing " ++ fileName ++ "...") (times 1))
      let st4 := setError st3 (some (errMessageOr e "Upload or processing failed"))
      let st5 := addMessage st4
        (sysMessage (ids 2) ("Failed to process " ++ fileName ++ ".") (times 2))
      setLoading st5 false
  | .bothSucceeded _ _ =>
      let st3 := addMessage st2
        (sysMessage (ids 1) ("File uploaded. Processing " ++ fileName ++ "...") (times 1))
      let st4 := addMessage st3
        (sysMessage (ids 2) (fileName ++ " processed and indexed successfully.") (times 2))
      setLoading st4 false

/-! ### Concrete fixtures used by counterexamples and witnesses -/

/-- The all-zero random stream. -/
def zeroRand : Nat → Nat := fun _ => 0

/-- Working storage with nothing stored. -/
def emptyStorage : StorageState :=
  { localData := [], sessionData := [], broken := false }

/-- Broken storage: every raw operation throws. -/
def brokenStorage : StorageState :=
  { localData := [("leftover", "value")], sessionData := [("stale", "id")],
    broken := true }

/-- Working storage whose stored session id is exactly the UUID the
all-zero random stream generates. -/
def collidingStorage : StorageState :=
  { localData := [],
    sessionData := [(SESSION_ID_KEY, "00000000-0000-4000-8000-000000000000")],
    broken := false }

/-- Working storage holding a session id distinct from the UUID the
all-zero random stream generates. -/
def distinctIdStorage : StorageState :=
  { localData := [],
    sessionData := [(SESSION_ID_KEY, "11111111-1111-4111-8111-111111111111")],
    broken := false }

/-- A backend failure that carries both an axios message and a backend
detail field. -/
def detailedFailure : JsError :=
  .errObj "Request failed with status code 500" (some 500)
    (some "Quota exceeded for project")

/-! ## Helper lemmas -/

theorem runFrom_success {α : Type} (attempts : Nat → AttemptOutcome α)
    (k : Nat) (v : α) (h : attempts k = .success v) :
    runFrom attempts k =
      { result := .ok v, retries := k, delayTotal := k * RETRY_DELAY,
        logged := false } := by
  rw [runFrom, h]

theorem runFrom_retry {α : Type} (attempts : Nat → AttemptOutcome α)
    (k : Nat) (e : JsError) (h : attempts k = .failure e)
    (hr : getRetryableError e = true) (hk : k < MAX_RETRIES) :
    runFrom attempts k = runFrom attempts (k + 1) := by
  rw [runFrom, h]
  simp [hr, hk]

theorem runFrom_stop {α : Type} (attempts : Nat → AttemptOutcome α)
    (k : Nat) (e : JsError) (h : attempts k = .failure e)
    (hstop : getRetryableError e = false ∨ MAX_RETRIES ≤ k) :
    runFrom attempts k =
      { result := .error e, retries := k, delayTotal := k * RETRY_DELAY,
        logged := shouldLogError e } := by
  rw [runFrom, h]
  rcases hstop with hr | hk
  · simp [hr]
  · simp [Nat.not_lt.mpr hk]

theorem hexDigitChar_isHex (n : Nat) :
    ("0123456789abcdef".toList).contains (hexDigitChar (n % 16)) = true := by
  have h : n % 16 < 16 := Nat.mod_lt _ (by decide)
  have hall : ∀ m : Fin 16,
      ("0123456789abcdef".toList).contains (hexDigitChar m.val) = true := by decide
  exact hall ⟨n % 16, h⟩

theorem hexDigitChar_variant (n : Nat) :
    ("89ab".toList).contains (hexDigitChar (((n % 16) &&& 3) ||| 8)) = true := by
  have h : n % 16 < 16 := Nat.mod_lt _ (by decide)
  have hall : ∀ m : Fin 16,
      ("89ab".toList).contains (hexDigitChar ((m.val &&& 3) ||| 8)) = true := by decide
  exact hall ⟨n % 16, h⟩

theorem replaceUuid_matches (rand : Nat → Nat) :
    ∀ (tmpl : List Char) (k : Nat),
      matchesUuidShape (replaceUuidChars rand tmpl k) tmpl = true := by
  intro tmpl
  induction tmpl with
  | nil => intro k; rfl
  | cons c cs ih =>
    intro k
    by_cases hx : c == 'x'
    · simp only [replaceUuidChars, hx, if_true, matchesUuidShape, Bool.and_eq_true]
      refine And.intro ?_ (ih _)
      simpa using hexDigitChar_isHex (rand k)
    · by_cases hy : c == 'y'
      · simp only [replaceUuidChars, matchesUuidShape, hx, hy, if_false, if_true,
          Bool.and_eq_true]
        refine And.intro ?_ (ih _)
        simpa using hexDigitChar_variant (rand k)
      · simp only [replaceUuidChars, matchesUuidShape, hx, hy, if_false,
          Bool.and_eq_true]
        exact And.intro (by simp) (ih _)

theorem generateUUID_shape (rand : Nat → Nat) :
    isUuidV4 (generateUUID rand) = true := by
  simpa [isUuidV4, generateUUID] using replaceUuid_matches rand uuidTemplate 0

theorem uuid_ne_empty (s : String) (h : isUuidV4 s = true) : (s != "") = true := by
  by_cases hs : s = ""
  · rw [hs] at h; exact absurd h (by decide)
  · simpa using hs

theorem lookup_setAssoc_self (l : List (String × String)) (k v : String) :
    (setAssoc l k v).lookup k = some v := by
  simp [setAssoc, List.lookup]

theorem lookup_filter_ne (l : List (String × String)) (k k2 : String) (h : k ≠ k2) :
    (l.filter (fun p => p.fst != k2)).lookup k = l.lookup k := by
  induction l with
  | nil => rfl
  | cons p rest ih =>
    by_cases hp : p.fst = k2
    · have hf : (p.fst != k2) = false := by simpa using hp
      have hk : (k == p.fst) = false := by
        simp only [beq_eq_false_iff_ne, ne_eq]
        intro hc
        exact h (by rw [hc, hp])
      simp [List.filter, hf, List.lookup, hk, ih]
    · have hf : (p.fst != k2) = true := by simpa using hp
      cases hkp : (k == p.fst) <;>
        simp [List.filter, hf, List.lookup, hkp, ih]

theorem lookup_setAssoc_ne (l : List (String × String)) (k k2 v : String)
    (h : k ≠ k2) : (setAssoc l k2 v).lookup k = l.lookup k := by
  have hk : (k == k2) = false := by simpa using h
  simp [setAssoc, List.lookup, hk, lookup_filter_ne l k k2 h]

theorem lookup_removeAssoc_self (l : List (String × String)) (k : String) :
    (removeAssoc l k).lookup k = none := by
  induction l with
  | nil => rfl
  | cons p rest ih =>
    by_cases hp : p.fst = k
    · have hf : (p.fst != k) = false := by simpa using hp
      simp [removeAssoc, List.filter, hf] at ih ⊢
      exact ih
    · have hf : (p.fst != k) = true := by simpa using hp
      have hk : (k == p.fst) = false := by
        simp only [beq_eq_false_iff_ne, ne_eq]
        intro hc
        exact hp (by rw [hc])
      simp [removeAssoc, List.filter, hf, List.lookup, hk] at ih ⊢
      exact ih

theorem getSessionId_fst_ne_empty (st : StorageState) (rand : Nat → Nat) :
    ((getSessionId st rand).1 != "") = true := by
  unfold getSessionId sessionGetItem
  by_cases hb : st.broken
  · simpa [hb] using uuid_ne_empty _ (generateUUID_shape rand)
  · simp only [hb, if_false]
    rcases hl : st.sessionData.lookup SESSION_ID_KEY with _ | s
    · simp [hl, sessionSetItem, hb]
      simpa using uuid_ne_empty _ (generateUUID_shape rand)
    · by_cases hs : s != ""
      · simp [hl, hs]
      · simp [hl, hs, sessionSetItem, hb]
        simpa using uuid_ne_empty _ (generateUUID_shape rand)

theorem regenerateSessionId_fst (st : StorageState) (rand : Nat → Nat) :
    (regenerateSessionId st rand).1 = generateUUID rand := by
  unfold regenerateSessionId clearSessionId sessionRemoveItem
  by_cases hb : st.broken
  · simp [hb, getSessionId, sessionGetItem]
  · simp only [hb, if_false]
    simp [getSessionId, sessionGetItem, hb, lookup_removeAssoc_self,
      sessionSetItem]

/-! ## Claim theorems -/

/-- C1, counterexample: a response with server error status 500 is not
classified retryable by the gateway — the request that fails with it is
surfaced immediately with zero reissues, not after the retry budget the
claim asserts. -/
theorem serverError_not_retried_cex :
    getRetryableError (axiosHttpError 500) = false ∧
    (runRequest (fun _ => AttemptOutcome.failure (axiosHttpError 500)) :
        RequestRun Unit) =
      { result := .error (axiosHttpError 500), retries := 0, delayTotal := 0,
        logged := true } := by
  refine ⟨by decide, ?_⟩
  rw [runRequest, runFrom_stop _ 0 (axiosHttpError 500) rfl (Or.inl (by decide))]
  exact rfl

/-- C1, amended: a failure the classifier does not mark retryable — in
particular a server-error (status 500 and above) response, whose axios
message matches none of the network or timeout patterns — is surfaced
to the caller immediately, with zero reissues and no delay, and is
logged exactly when it has no response or a status of at least 500. -/
theorem serverError_surfaced_immediately (e : JsError)
    (h : getRetryableError e = false) :
    (runRequest (fun _ => AttemptOutcome.failure e) : RequestRun Unit) =
      { result := .error e, retries := 0, delayTotal := 0,
        logged := shouldLogError e } := by
  rw [runRequest, runFrom_stop _ 0 e rfl (Or.inl h)]
  simp

/-- Witness for C1 amended at the concrete 500 failure. -/
theorem serverError_surfaced_immediately_witness :
    getRetryableError (axiosHttpError 500) = false ∧
    (runRequest (fun _ => AttemptOutcome.failure (axiosHttpError 500)) :
        RequestRun Unit) =
      { result := .error (axiosHttpError 500), retries := 0, delayTotal := 0,
        logged := shouldLogError (axiosHttpError 500) } :=
  ⟨by decide, serverError_surfaced_immediately (axiosHttpError 500) (by decide)⟩

/-- C2: the gateway is configured with a maximum of 2 retries and a
fixed 1000ms delay; a request failing with a network error on every
attempt is reissued exactly MAX_RETRIES times, waiting the fixed delay
before each reissue, and then rejected; a request whose attempts fail
with a network error until attempt n succeeds is reissued exactly
min n MAX_RETRIES times; and a request failing with a 404 response is
rejected immediately with zero reissues. -/
theorem requestGateway_retry_budget :
    MAX_RETRIES = 2 ∧ RETRY_DELAY = 1000 ∧
    (∀ e : JsError, isNetworkError e = true →
      (runRequest (fun _ => AttemptOutcome.failure e) : RequestRun Unit) =
        { result := .error e, retries := MAX_RETRIES,
          delayTotal := MAX_RETRIES * RETRY_DELAY,
          logged := shouldLogError e }) ∧
    (∀ (e : JsError) (n : Nat), isNetworkError e = true →
      (runRequest
          (fun k => if k < n then AttemptOutcome.failure e
                    else AttemptOutcome.success ())).retries =
        min n MAX_RETRIES) ∧
    (runRequest (fun _ => AttemptOutcome.failure (axiosHttpError 404)) :
        RequestRun Unit) =
      { result := .error (axiosHttpError 404), retries := 0, delayTotal := 0,
        logged := false } := by
  refine ⟨rfl, rfl, ?_, ?_, ?_⟩
  · intro e h
    have hr : getRetryableError e = true := by
      simp [getRetryableError, h]
    rw [runRequest, runFrom_retry _ 0 e rfl hr (by decide),
      runFrom_retry _ 1 e rfl hr (by decide),
      runFrom_stop _ 2 e rfl (Or.inr (by decide))]
    exact rfl
  · intro e n h
    have hr : getRetryableError e = true := by
      simp [getRetryableError, h]
    match n with
    | 0 =>
      rw [runRequest, runFrom_success _ 0 () (by simp)]
      decide
    | 1 =>
      rw [runRequest, runFrom_retry _ 0 e (by simp) hr (by decide),
        runFrom_success _ 1 () (by simp)]
      decide
    | 2 =>
      rw [runRequest, runFrom_retry _ 0 e (by simp) hr (by decide),
        runFrom_retry _ 1 e (by simp) hr (by decide),
        runFrom_success _ 2 () (by simp)]
      decide
    | (m + 3) =>
      rw [runRequest,
        runFrom_retry _ 0 e (by simp) hr (by decide),
        runFrom_retry _ 1 e (by simp) hr (by decide),
        runFrom_stop _ 2 e (by simp) (Or.inr (by decide))]
      simp [MAX_RETRIES]
  · rw [runRequest,
      runFrom_stop _ 0 (axiosHttpError 404) rfl (Or.inl (by decide))]
    exact rfl

/-- Witness for C2 at the concrete axios network error: two reissues,
2000ms of accumulated delay, rejection surfaced, and zero reissues for
the 404. -/
theorem requestGateway_retry_budget_witness :
    isNetworkError axiosNetworkError = true ∧
    (runRequest (fun _ => AttemptOutcome.failure axiosNetworkError) :
        RequestRun Unit) =
      { result := .error axiosNetworkError, retries := 2, delayTotal := 2000,
        logged := true } :=
  ⟨by decide,
    requestGateway_retry_budget.2.2.1 axiosNetworkError (by decide)⟩

/-- C3: a successful send-text response maps to an assistant message
whose content is the response text; each retrieved chunk becomes
exactly one citation whose title and url follow the spec fallback
chains (title from metadata, else filename, else a synthesized
Document title; url from metadata, else source, else empty) and whose
relevance is the similarity score verbatim; in particular a chunk with
empty metadata and asset id 500 yields the title Document 500 and the
empty url. -/
theorem sendMessage_response_mapping :
    (∀ (resp : RagQueryResponse) (msgId : String) (now : Nat),
      (sendMessageResult resp msgId now).role = Role.assistant ∧
      (sendMessageResult resp msgId now).content = resp.response ∧
      (sendMessageResult resp msgId now).sources =
        some (resp.retrieved_chunks.map toChatSource) ∧
      (resp.retrieved_chunks.map toChatSource).length =
        resp.retrieved_chunks.length) ∧
    (∀ chunk : RetrievedChunk,
      toChatSource chunk =
        { title := specCitationTitle chunk, url := specCitationUrl chunk,
          relevance_score := chunk.similarity_score }) ∧
    toChatSource
        { chunk_id := 0, asset_id := 500, content := "",
          similarity_score := 0, metadata := some [] } =
      { title := "Document 500", url := "", relevance_score := 0 } := by
  refine ⟨fun resp msgId now => ⟨rfl, rfl, rfl, by simp⟩, ?_, by decide⟩
  intro chunk
  have htitle : chunkTitle chunk = specCitationTitle chunk := by
    unfold chunkTitle specCitationTitle jsStrOr
    rcases metaGet chunk.metadata "title" with _ | t
    · rcases metaGet chunk.metadata "filename" with _ | f
      · rfl
      · by_cases hf : f = "" <;> simp [hf]
    · rcases metaGet chunk.metadata "filename" with _ | f
      · by_cases ht : t = "" <;> simp [ht]
      · by_cases ht : t = "" <;> by_cases hf : f = "" <;> simp [ht, hf]
  have hurl : chunkUrl chunk = specCitationUrl chunk := by
    unfold chunkUrl specCitationUrl jsStrOr
    rcases metaGet chunk.metadata "url" with _ | u
    · rcases metaGet chunk.metadata "source" with _ | v
      · rfl
      · by_cases hv : v = "" <;> simp [hv]
    · rcases metaGet chunk.metadata "source" with _ | v
      · by_cases hu : u = "" <;> simp [hu]
      · by_cases hu : u = "" <;> by_cases hv : v = "" <;> simp [hu, hv]
  simp [toChatSource, htitle, hurl]

/-- C4: in the upload flow on file f, if both calls succeed exactly
the three breadcrumbs Uploading f..., File uploaded. Processing f...,
and f processed and indexed successfully. are appended in order and
loading ends false; if the upload call fails only the first breadcrumb
precedes the Failed to process f. breadcrumb, the error slot is
non-null and loading ends false; if the process call fails the first
two breadcrumbs precede the failure breadcrumb (the success breadcrumb
is absent), the error slot is non-null and loading ends false. -/
theorem uploadFlow_breadcrumbs (st : ChatState) (fileName : String)
    (ids : Nat → String) (times : Nat → Nat) :
    (∀ (assetId : Nat) (taskStatus : String),
      handleUploadFile st fileName (.bothSucceeded assetId taskStatus) ids times =
        { messages := st.messages ++
            [sysMessage (ids 0) ("Uploading " ++ fileName ++ "...") (times 0),
             sysMessage (ids 1) ("File uploaded. Processing " ++ fileName ++ "...")
               (times 1),
             sysMessage (ids 2) (fileName ++ " processed and indexed successfully.")
               (times 2)],
          isLoading := false, error := none, sessionId := st.sessionId }) ∧
    (∀ e : JsError,
      handleUploadFile st fileName (.uploadFailed e) ids times =
        { messages := st.messages ++
            [sysMessage (ids 0) ("Uploading " ++ fileName ++ "...") (times 0),
             sysMessage (ids 1) ("Failed to process " ++ fileName ++ ".") (times 1)],
          isLoading := false,
          error := some (errMessageOr e "Upload or processing failed"),
          sessionId := st.sessionId }) ∧
    (∀ (assetId : Nat) (e : JsError),
      handleUploadFile st fileName (.processFailed assetId e) ids times =
        { messages := st.messages ++
            [sysMessage (ids 0) ("Uploading " ++ fileName ++ "...") (times 0),
             sysMessage (ids 1) ("File uploaded. Processing " ++ fileName ++ "...")
               (times 1),
             sysMessage (ids 2) ("Failed to process " ++ fileName ++ ".") (times 2)],
          isLoading := false,
          error := some (errMessageOr e "Upload or processing failed"),
          sessionId := st.sessionId }) := by
  refine ⟨fun assetId taskStatus => ?_, fun e => ?_, fun assetId e => ?_⟩ <;>
    simp [handleUploadFile, addMessage, setLoading, setError, clearError]

/-- C5, counterexample: a send failure that carries the backend detail
Quota exceeded for project writes the axios transport message, not the
backend detail, into the error slot — refuting the claim that the
backend-provided detail is preferred whenever the failure carries
one. -/
theorem errorSlot_ignores_detail_cex :
    (handleSendMessage initialChatState "hello" (.error detailedFailure)
        "m1" 0).error = some "Request failed with status code 500" ∧
    (handleSendMessage initialChatState "hello" (.error detailedFailure)
        "m1" 0).error ≠ some "Quota exceeded for project" := by
  constructor <;> decide

/-- C5, amended: on failure of an orchestrated flow the message
written to the error slot is the failure value's own message whenever
the failure is an Error instance — the backend detail field is never
consulted — and the flow-specific generic fallback otherwise. -/
theorem errorSlot_message_or_fallback (st : ChatState) (content fileName : String)
    (e : JsError) (msgId : String) (now : Nat) (ids : Nat → String)
    (times : Nat → Nat) (assetId : Nat) :
    (handleSendMessage st content (.error e) msgId now).error =
      some (errMessageOr e "Failed to send message") ∧
    (handleUploadFile st fileName (.uploadFailed e) ids times).error =
      some (errMessageOr e "Upload or processing failed") ∧
    (handleUploadFile st fileName (.processFailed assetId e) ids times).error =
      some (errMessageOr e "Upload or processing failed") := by
  refine ⟨?_, ?_, ?_⟩ <;>
    simp [handleSendMessage, handleUploadFile, addMessage, setLoading, setError,
      clearError]

/-- C6, counterexample: the CSRF fetch of the login flow is issued
with the GET method, not POST as the claim states. -/
theorem csrf_method_cex :
    csrfRequestMethod = HttpMethod.get ∧ csrfRequestMethod ≠ HttpMethod.post := by
  constructor <;> decide

/-- C6, amended: login first requests a CSRF token from the backend
via GET on the csrf route and stores it before issuing the login call —
a truthy fetched token is retrievable from storage in the state the
login call receives, and still after the login call returns; a failure
of the CSRF fetch is non-fatal (the login call still decides the
outcome and the failure is logged as a warning), and on login success
the returned auth token and user id are stored — the token retrievable
through the credential accessor, the id as its decimal string under its
storage key — and the response is returned. -/
theorem login_csrf_flow :
    csrfRequestMethod = HttpMethod.get ∧
    csrfRequestPath = "/auth/csrf" ∧
    (∀ (st : StorageState) (r : CsrfResponse), st.broken = false →
      (r.csrf_token != "") = true →
      getCsrfToken (fetchCsrfToken st (.ok r)).2.1 = some r.csrf_token ∧
      (∀ lo : Except JsError LoginResponse,
        getCsrfToken (login st (.ok r) lo).2.1 = some r.csrf_token)) ∧
    (∀ (st : StorageState) (e : JsError) (lo : Except JsError LoginResponse),
      (login st (.error e) lo).1 = lo ∧ (login st (.error e) lo).2.2 = true) ∧
    (∀ (st : StorageState) (co : Except JsError CsrfResponse)
        (data : LoginResponse), st.broken = false →
      (login st co (.ok data)).1 = .ok data ∧
      getAuthToken (login st co (.ok data)).2.1 = some data.access_token ∧
      ((login st co (.ok data)).2.1).localData.lookup USER_ID_KEY =
        some (toString data.user_id)) := by
  refine ⟨rfl, rfl, ?_, ?_, ?_⟩
  · intro st r hb ht
    have h1 : (fetchCsrfToken st (.ok r)).2.1 = setCsrfToken st r.csrf_token := by
      simp [fetchCsrfToken, ht]
    have hstored : getCsrfToken (setCsrfToken st r.csrf_token) =
        some r.csrf_token := by
      simp [getCsrfToken, setCsrfToken, sessionSetItem, sessionGetItem, hb,
        lookup_setAssoc_self]
    refine ⟨h1 ▸ hstored, ?_⟩
    intro lo
    rcases lo with e | data
    · simp only [login]
      rw [h1]
      exact hstored
    · simp only [login]
      rw [h1]
      simp [getCsrfToken, setUserId, setAuthToken, localSetItem, setCsrfToken,
        sessionSetItem, sessionGetItem, hb, lookup_setAssoc_self]
  · intro st e lo
    rcases lo with e2 | data <;> simp [login, fetchCsrfToken]
  · intro st co data hb
    have hpre : (fetchCsrfToken st co).2.1.localData = st.localData ∧
        (fetchCsrfToken st co).2.1.broken = false := by
      rcases co with e | r
      · simp [fetchCsrfToken, hb]
      · by_cases ht : (r.csrf_token != "") = true <;>
          simp [fetchCsrfToken, ht, setCsrfToken, sessionSetItem, hb]
    rcases lo_def : login st co (.ok data) with ⟨res, st2, warned⟩
    have hlogin : res = .ok data ∧
        st2 = setUserId (setAuthToken (fetchCsrfToken st co).2.1
          data.access_token) data.user_id := by
      have := lo_def.symm
      simp [login] at this
      exact ⟨this.1, this.2.1⟩
    rcases hlogin with ⟨hres, hst2⟩
    subst hres hst2
    refine ⟨rfl, ?_, ?_⟩
    · simp [getAuthToken, setUserId, setAuthToken, localSetItem, localGetItem,
        hpre.2, hpre.1]
      rw [lookup_setAssoc_ne _ _ _ _ (by decide), lookup_setAssoc_self]
    · simp [setUserId, setAuthToken, localSetItem, hpre.2, hpre.1]
      rw [lookup_setAssoc_self]

/-- Witness for C6 amended on empty working storage: a successfully
fetched CSRF token csrf123 is stored before the login call is issued
and is still stored after a successful login, which also stores the
credentials and returns the response; and a login whose CSRF fetch
failed still succeeds. -/
theorem login_csrf_flow_witness :
    emptyStorage.broken = false ∧
    (({ csrf_token := "csrf123" } : CsrfResponse).csrf_token != "") = true ∧
    getCsrfToken (fetchCsrfToken emptyStorage
        (.ok { csrf_token := "csrf123" })).2.1 = some "csrf123" ∧
    getCsrfToken (login emptyStorage (.ok { csrf_token := "csrf123" })
        (.ok { access_token := "tok", token_type := "bearer", user_id := 7 })).2.1 =
      some "csrf123" ∧
    (login emptyStorage (.ok { csrf_token := "csrf123" })
        (.ok { access_token := "tok", token_type := "bearer", user_id := 7 })).1 =
      .ok { access_token := "tok", token_type := "bearer", user_id := 7 } ∧
    getAuthToken (login emptyStorage (.ok { csrf_token := "csrf123" })
        (.ok { access_token := "tok", token_type := "bearer", user_id := 7 })).2.1 =
      some "tok" ∧
    ((login emptyStorage (.ok { csrf_token := "csrf123" })
        (.ok { access_token := "tok", token_type := "bearer", user_id := 7 })).2.1).localData.lookup
        USER_ID_KEY = some "7" ∧
    (login emptyStorage (.error JsError.other)
        (.ok { access_token := "tok", token_type := "bearer", user_id := 7 })).1 =
      .ok { access_token := "tok", token_type := "bearer", user_id := 7 } :=
  ⟨rfl, by decide,
    (login_csrf_flow.2.2.1 emptyStorage { csrf_token := "csrf123" } rfl
      (by decide)).1,
    (login_csrf_flow.2.2.1 emptyStorage { csrf_token := "csrf123" } rfl
      (by decide)).2
      (.ok { access_token := "tok", token_type := "bearer", user_id := 7 }),
    (login_csrf_flow.2.2.2.2 emptyStorage (.ok { csrf_token := "csrf123" })
      { access_token := "tok", token_type := "bearer", user_id := 7 } rfl).1,
    (login_csrf_flow.2.2.2.2 emptyStorage (.ok { csrf_token := "csrf123" })
      { access_token := "tok", token_type := "bearer", user_id := 7 } rfl).2.1,
    (login_csrf_flow.2.2.2.2 emptyStorage (.ok { csrf_token := "csrf123" })
      { access_token := "tok", token_type := "bearer", user_id := 7 } rfl).2.2,
    (login_csrf_flow.2.2.2.2 emptyStorage (.error JsError.other)
      { access_token := "tok", token_type := "bearer", user_id := 7 } rfl).1⟩

/-- C7, counterexample: when the stored session id happens to equal the
UUID the random stream would generate, regenerateSessionId returns the
very value getSessionId would have returned immediately before —
refuting the unconditional always-different claim. -/
theorem regenerate_same_value_cex :
    (regenerateSessionId collidingStorage zeroRand).1 =
      (getSessionId collidingStorage zeroRand).1 := by
  decide

/-- C7, amended: regenerateSessionId clears the stored id and returns
a freshly generated UUID, so its result differs from the id
getSessionId would have returned immediately before whenever that
fresh draw differs from it (equality occurs only on a UUID
collision). -/
theorem regenerate_differs_unless_collision (st : StorageState)
    (rand : Nat → Nat) (h : generateUUID rand ≠ (getSessionId st rand).1) :
    (regenerateSessionId st rand).1 ≠ (getSessionId st rand).1 := by
  rw [regenerateSessionId_fst]
  exact h

/-- Witness for C7 amended at a stored id distinct from the fresh
draw of the all-zero stream. -/
theorem regenerate_differs_unless_collision_witness :
    generateUUID zeroRand ≠ (getSessionId distinctIdStorage zeroRand).1 ∧
    (regenerateSessionId distinctIdStorage zeroRand).1 ≠
      (getSessionId distinctIdStorage zeroRand).1 :=
  ⟨by decide, regenerate_differs_unless_collision distinctIdStorage zeroRand (by decide)⟩

/-- C8: with working storage whose stored id (if any) has the UUID v4
shape, two consecutive getSessionId calls with no intervening clear or
regenerate return the same value, and that value is never empty or
malformed — it has the UUID v4 shape. -/
theorem getSessionId_stable_shape (st : StorageState) (rand rand2 : Nat → Nat)
    (hb : st.broken = false)
    (hstored : ∀ s, st.sessionData.lookup SESSION_ID_KEY = some s →
      isUuidV4 s = true) :
    (getSessionId (getSessionId st rand).2 rand2).1 = (getSessionId st rand).1 ∧
    isUuidV4 (getSessionId st rand).1 = true := by
  rcases hl : st.sessionData.lookup SESSION_ID_KEY with _ | s
  · have hshape := generateUUID_shape rand
    have hne := uuid_ne_empty _ hshape
    have h1 : getSessionId st rand =
        (generateUUID rand,
          { st with sessionData :=
              setAssoc st.sessionData SESSION_ID_KEY (generateUUID rand) }) := by
      simp [getSessionId, sessionGetItem, hb, hl, sessionSetItem]
    rw [h1]
    refine ⟨?_, hshape⟩
    simp [getSessionId, sessionGetItem, hb, lookup_setAssoc_self, hne]
  · have hshape := hstored s hl
    have hne := uuid_ne_empty s hshape
    have h1 : getSessionId st rand = (s, st) := by
      simp [getSessionId, sessionGetItem, hb, hl, hne]
    rw [h1]
    refine ⟨?_, hshape⟩
    simp [getSessionId, sessionGetItem, hb, hl, hne]

/-- Witness for C8 on empty working storage. -/
theorem getSessionId_stable_shape_witness :
    (getSessionId (getSessionId emptyStorage zeroRand).2 zeroRand).1 =
      (getSessionId emptyStorage zeroRand).1 ∧
    isUuidV4 (getSessionId emptyStorage zeroRand).1 = true :=
  getSessionId_stable_shape emptyStorage zeroRand zeroRand rfl
    (fun s hs => by simp [emptyStorage, List.lookup] at hs)

/-- C9: every credential-store operation is a total function that
never surfaces the storage exception: when every raw storage operation
throws, the readers return the documented absent value (null, or a
fresh UUID for getSessionId, which also leaves storage untouched) and
the writers and removers degrade to a no-op. -/
theorem credentialStore_no_throw (st : StorageState) (rand : Nat → Nat)
    (t ctok : String) (i : Int) (hb : st.broken = true) :
    getAuthToken st = none ∧ getUserId st = none ∧ getCsrfToken st = none ∧
    setAuthToken st t = st ∧ removeAuthToken st = st ∧
    setUserId st i = st ∧ removeUserId st = st ∧
    setCsrfToken st ctok = st ∧ removeCsrfToken st = st ∧
    clearAuth st = st ∧
    getSessionId st rand = (generateUUID rand, st) ∧
    clearSessionId st = st := by
  simp [getAuthToken, getUserId, getCsrfToken, setAuthToken, removeAuthToken,
    setUserId, removeUserId, setCsrfToken, removeCsrfToken, clearAuth,
    getSessionId, clearSessionId, localGetItem, localSetItem, localRemoveItem,
    sessionGetItem, sessionSetItem, sessionRemoveItem, hb]

/-- Witness for C9 on a concrete broken storage. -/
theorem credentialStore_no_throw_witness :
    getAuthToken brokenStorage = none ∧ getUserId brokenStorage = none ∧
    getCsrfToken brokenStorage = none ∧
    setAuthToken brokenStorage "tok" = brokenStorage ∧
    removeAuthToken brokenStorage = brokenStorage ∧
    setUserId brokenStorage 7 = brokenStorage ∧
    removeUserId brokenStorage = brokenStorage ∧
    setCsrfToken brokenStorage "csrf" = brokenStorage ∧
    removeCsrfToken brokenStorage = brokenStorage ∧
    clearAuth brokenStorage = brokenStorage ∧
    getSessionId brokenStorage zeroRand = (generateUUID zeroRand, brokenStorage) ∧
    clearSessionId brokenStorage = brokenStorage :=
  credentialStore_no_throw brokenStorage zeroRand "tok" "csrf" 7 rfl

/-- C10: chatService.sendMessage ignores its sessionId argument — the
payload it builds and the fully decorated outgoing request are
identical for any two sessionId values — and session correlation
happens only through the session header the request interceptor
injects from the stored session id. -/
theorem sendMessage_sessionId_independent (st : StorageState)
    (rand : Nat → Nat) (query s1 s2 : String) :
    sendMessagePayload query s1 = sendMessagePayload query s2 ∧
    sendMessageOutgoing st rand query s1 = sendMessageOutgoing st rand query s2 ∧
    (sendMessageOutgoing st rand query s1).1.headers.lookup "X-Session-ID" =
      some (getSessionId st rand).1 := by
  refine ⟨rfl, rfl, ?_⟩
  have hsid := getSessionId_fst_ne_empty st rand
  have hne1 : ∀ (l : List (String × String)) (v : String),
      (setAssoc l "Authorization" v).lookup "X-Session-ID" =
        l.lookup "X-Session-ID" :=
    fun l v => lookup_setAssoc_ne l _ _ v (by decide)
  have hne2 : ∀ (l : List (String × String)) (v : String),
      (setAssoc l "X-CSRF-Token" v).lookup "X-Session-ID" =
        l.lookup "X-Session-ID" :=
    fun l v => lookup_setAssoc_ne l _ _ v (by decide)
  unfold sendMessageOutgoing applyRequestInterceptor
  rcases hA : getAuthToken (getSessionId st rand).2 with _ | tok <;>
    rcases hC : getCsrfToken (getSessionId st rand).2 with _ | ctok <;>
    simp only [hA, hC, hsid, if_true, setHeader] <;>
    first
      | (split_ifs <;> simp [hne1, hne2, lookup_setAssoc_self])
      | simp [lookup_setAssoc_self]
